import Mathlib

/-!
Verification of the search, aggregation, featured-selection and routing
logic of `src/app.py` (a Streamlit dashboard over a table of business
frameworks), shallowly embedded in Lean.

Modelling choices, stated once:

* A data-frame row becomes a `FrameworkRecord`; the data frame becomes a
  `List FrameworkRecord` in row order.
* `pandas.Series.str.contains(pat, case=False)` — its default is
  `regex=True` — compiles `pat` with Python's `re` module and searches each
  cell.  The fragment of the `re` pattern language that the analysed
  queries exercise is embedded below (`RElem`, `parsePattern`, `reSearch`):
  literal characters, `.` (any character except a newline), and `[...]`
  character sets, where a `]` directly after `[` or `[^` is a literal
  member and an unterminated set is a compile error, exactly as in CPython
  (error text `unterminated character set at position i`).  Class ranges,
  escapes and the remaining metacharacters are outside the modelled
  fragment and are rejected by `parsePattern`; no theorem below evaluates
  the model at such a pattern.  `case=False` (re.IGNORECASE) is modelled
  by lower-casing both the pattern and the searched text.
* Streamlit rendering calls (`st.metric`, `st.write`, ...) become lines of
  text accumulated in a `List String`; a Python exception becomes the
  `Except.error` branch carrying `str(e)`.  Lines already rendered before
  an exception is raised are not tracked: no claim concerns them.
-/

/-- One row of the frameworks data frame loaded by `get_all_frameworks`. -/
structure FrameworkRecord where
  name : String
  category : String
  core_function : String
  typical_uses : String
deriving DecidableEq, Repr

/-- Lower-casing of a character sequence; models Python case-insensitive
comparison (`case=False` / `re.IGNORECASE`) over the alphabet in use. -/
def lowerChars (l : List Char) : List Char := l.map Char.toLower

/-- One element of a compiled pattern: a literal character, `.`, or a
character set `[...]` (possibly negated). -/
inductive RElem where
  | lit (c : Char)
  | dot
  | cls (neg : Bool) (cs : List Char)
deriving DecidableEq, Repr

/-- A compiled pattern: the concatenation of its elements. -/
abbrev RPattern := List RElem

/-- Metacharacters of the `re` pattern language whose constructs lie outside
the modelled fragment. -/
def isMeta (c : Char) : Bool :=
  c = '*' || c = '+' || c = '?' || c = '(' || c = ')' || c = '|' ||
  c = '\\' || c = '^' || c = '$' || c = '{' || c = '}'

/-- The scanner state of the pattern compiler: at the top level, right after
the `[` (or `[^`) of a character set with `start` the position of the `[`,
or inside the body of a character set with the members read so far. -/
inductive PMode where
  | top
  | classFirst (neg : Bool) (start : Nat)
  | classBody (neg : Bool) (start : Nat) (acc : List Char)

/-- One pass over the pattern characters; `i` is the current position.
Right after `[` an optional `^` negates the set, and the first member is
literal even when it is `]`; a set whose `]` is never reached is a compile
error naming the position of its `[`, as in CPython. -/
def parseAux (i : Nat) (m : PMode) : List Char → Except String RPattern
  | [] =>
    match m with
    | .top => .ok []
    | .classFirst _ start =>
      .error ("unterminated character set at position " ++ toString start)
    | .classBody _ start _ =>
      .error ("unterminated character set at position " ++ toString start)
  | c :: rest =>
    match m with
    | .top =>
      if c = '.' then (parseAux (i + 1) .top rest).map (RElem.dot :: ·)
      else if c = '[' then parseAux (i + 1) (.classFirst false i) rest
      else if isMeta c then
        .error ("unsupported pattern construct at position " ++ toString i)
      else (parseAux (i + 1) .top rest).map (RElem.lit c :: ·)
    | .classFirst neg start =>
      if c = '^' ∧ neg = false then parseAux (i + 1) (.classFirst true start) rest
      else parseAux (i + 1) (.classBody neg start [c]) rest
    | .classBody neg start acc =>
      if c = ']' then
        (parseAux (i + 1) .top rest).map (RElem.cls neg acc.reverse :: ·)
      else parseAux (i + 1) (.classBody neg start (c :: acc)) rest

/-- Compiles a pattern string (as a character list) into an `RPattern`;
models `re.compile` on the embedded fragment.  A pattern using a construct
outside the fragment is rejected. -/
def parsePattern (i : Nat) (s : List Char) : Except String RPattern :=
  parseAux i .top s

/-- Whether a pattern element matches one character. -/
def elemMatch : RElem → Char → Bool
  | .lit c, x => c = x
  | .dot, x => x ≠ '\n'
  | .cls neg cs, x => if neg then !(cs.contains x) else cs.contains x

/-- Whether the pattern matches a prefix of the text. -/
def matchHere : RPattern → List Char → Bool
  | [], _ => true
  | _ :: _, [] => false
  | e :: p, c :: s => elemMatch e c && matchHere p s

/-- Whether the pattern matches anywhere in the text; models `re.search`. -/
def reSearch (p : RPattern) : List Char → Bool
  | [] => matchHere p []
  | s@(_ :: rest) => matchHere p s || reSearch p rest

/-- Whether one cell matches the compiled pattern, case-insensitively. -/
def cellMatches (p : RPattern) (s : String) : Bool :=
  reSearch p (lowerChars s.toList)

/-- The search of `show_home_page` (src/app.py lines 99-103): the rows whose
`name`, `core_function` or `typical_uses` matches `search_term` under
`str.contains(search_term, case=False)`, OR-combined; compiling an invalid
pattern raises, which the `Except.error` branch carries. -/
def searchCode (df : List FrameworkRecord) (q : String) :
    Except String (List FrameworkRecord) :=
  match parsePattern 0 (lowerChars q.toList) with
  | .error e => .error e
  | .ok p => .ok (df.filter (fun r =>
      cellMatches p r.name || cellMatches p r.core_function ||
        cellMatches p r.typical_uses))

/-- Literal (non-regex) prefix test on character lists. -/
def startsWithChars : List Char → List Char → Bool
  | [], _ => true
  | _ :: _, [] => false
  | a :: p, b :: s => a = b && startsWithChars p s

/-- Literal (non-regex) substring occurrence on character lists. -/
def occursInChars (p : List Char) : List Char → Bool
  | [] => startsWithChars p []
  | s@(_ :: rest) => startsWithChars p s || occursInChars p rest

/-- Case-insensitive literal substring containment: what the specification
means by "q (case-insensitive) occurs in" a field. -/
def containsSubstrCI (s q : String) : Bool :=
  occursInChars (lowerChars q.toList) (lowerChars s.toList)

/-- The comparison `value_counts` sorts by: count of the left entry at least
the count of the right one (descending counts). -/
def countGE (a b : String × Nat) : Prop := b.2 ≤ a.2

instance : DecidableRel countGE :=
  fun a b => inferInstanceAs (Decidable (b.2 ≤ a.2))

instance : IsTotal (String × Nat) countGE :=
  ⟨fun a b => Nat.le_total b.2 a.2⟩

instance : IsTrans (String × Nat) countGE :=
  ⟨fun _ _ _ hab hbc => Nat.le_trans hbc hab⟩

/-- The distinct values of a list, each kept at its first occurrence, in
order of first occurrence. -/
def uniqueInOrder : List String → List String
  | [] => []
  | c :: rest => c :: (uniqueInOrder rest).filter (fun x => x != c)

/-- The `category` column of the data frame, in row order. -/
def catList (df : List FrameworkRecord) : List String := df.map (·.category)

/-- Each distinct category paired with its number of rows, keyed in order of
first occurrence in the data frame. -/
def dedupCounts (df : List FrameworkRecord) : List (String × Nat) :=
  (uniqueInOrder (catList df)).map (fun c => (c, (catList df).count c))

/-- The histogram `frameworks_df['category'].value_counts()` of
src/app.py line 84: distinct categories with their row counts, sorted by
descending count.  The library call leaves the relative order of
equal-count categories unspecified (its default sort is not stable), so
this function is a determinized stand-in: it picks one admissible outcome,
first-occurrence order for ties.  It only feeds the rendered chart lines
below; no theorem in this file relies on its tie order. -/
def category_value_counts (df : List FrameworkRecord) : List (String × Nat) :=
  List.insertionSort countGE (dedupCounts df)

/-- The featured-framework selection `frameworks_df[frameworks_df['name']
.isin(names)]` of src/app.py line 124: the rows whose name is one of
`names`, in data-frame order. -/
def selectFeatured (df : List FrameworkRecord) (names : List String) :
    List FrameworkRecord :=
  df.filter (fun r => names.contains r.name)

/-- The hard-coded featured list of src/app.py lines 116-122. -/
def featured_frameworks : List String :=
  ["SWOT Analysis", "Business Model Canvas", "Porter\x27s Five Forces",
   "Design Thinking", "Lean Management"]

/-- `featured_df` of src/app.py line 124. -/
def featured_df (df : List FrameworkRecord) : List FrameworkRecord :=
  selectFeatured df featured_frameworks

/-- The five navigation labels of the sidebar radio control. -/
inductive Page where
  | home
  | framework_explorer
  | comparative_analysis
  | industry_recommendations
  | framework_relationships
deriving DecidableEq, Repr

/-- The label shown for each page, as listed in src/app.py lines 24-30. -/
def pageLabel : Page → String
  | .home => "Home"
  | .framework_explorer => "Framework Explorer"
  | .comparative_analysis => "Comparative Analysis"
  | .industry_recommendations => "Industry Recommendations"
  | .framework_relationships => "Framework Relationships"

/-- The render outcomes of the four lazily imported page modules
(`pages.framework_explorer.show_page()` and its three siblings): the lines
a handler renders, or the text of the exception it raises. -/
structure PageHandlers where
  framework_explorer : Except String (List String)
  comparative_analysis : Except String (List String)
  industry_recommendations : Except String (List String)
  framework_relationships : Except String (List String)

/-- The handler invoked for a page: `none` for Home, which is rendered by
`show_home_page` itself rather than an imported module. -/
def handlerResult (H : PageHandlers) : Page → Option (Except String (List String))
  | .home => none
  | .framework_explorer => some H.framework_explorer
  | .comparative_analysis => some H.comparative_analysis
  | .industry_recommendations => some H.industry_recommendations
  | .framework_relationships => some H.framework_relationships

/-- The four `st.metric` lines of src/app.py lines 65-77. -/
def metricLines (df : List FrameworkRecord) (cats : List String) : List String :=
  ["Total Frameworks: " ++ toString df.length,
   "Categories: " ++ toString cats.length,
   "Strategic Frameworks: " ++
     toString (df.filter (fun r => r.category == "Strategic Planning Frameworks")).length,
   "Industries Covered: 10+"]

/-- The bar chart of src/app.py lines 84-92, as its title and one line per
category of `category_value_counts`, in chart order. -/
def chartLines (df : List FrameworkRecord) : List String :=
  "Number of Frameworks by Category" ::
    (category_value_counts df).map (fun p => p.1 ++ ": " ++ toString p.2)

/-- One row of the search-results table of src/app.py lines 106-109. -/
def searchResultLine (r : FrameworkRecord) : String :=
  r.name ++ " | " ++ r.category ++ " | " ++ r.core_function ++ " | " ++ r.typical_uses

/-- The quick-search block of src/app.py lines 96-111: an empty
`search_term` is falsy, so the filter is not evaluated at all; otherwise
the filtered rows are shown, or a no-results warning when none match. -/
def searchSection (df : List FrameworkRecord) (q : String) :
    Except String (List String) :=
  if q = "" then .ok []
  else
    match searchCode df q with
    | .error e => .error e
    | .ok filtered =>
      if filtered.isEmpty then .ok ["No frameworks found matching your search."]
      else .ok (filtered.map searchResultLine)

/-- The expander of one featured framework, src/app.py lines 126-130. -/
def expanderLines (r : FrameworkRecord) : List String :=
  ["📋 " ++ r.name,
   "**Category:** " ++ r.category,
   "**Core Function:** " ++ r.core_function,
   "**Typical Uses:** " ++ r.typical_uses]

/-- The featured-frameworks block of src/app.py lines 124-130. -/
def featuredLines (df : List FrameworkRecord) : List String :=
  ((featured_df df).map expanderLines).flatten

/-- The getting-started block of src/app.py lines 133-146, condensed to its
headings (presentation detail). -/
def guideLines : List String :=
  ["🚀 Getting Started", "How to use this platform"]

/-- `show_home_page` of src/app.py lines 61-146: the rendered lines, or the
exception text when a block raises (the only fallible block is the search,
whose pattern compilation can fail). -/
def show_home_page (df : List FrameworkRecord) (cats : List String) (q : String) :
    Except String (List String) :=
  match searchSection df q with
  | .error e => .error e
  | .ok sLines =>
    .ok (metricLines df cats ++ ["📊 Framework Categories Overview"] ++
      chartLines df ++ ["🔍 Quick Framework Search"] ++ sLines ++
      ["⭐ Featured Frameworks"] ++ featuredLines df ++ guideLines)

/-- The title lines of src/app.py lines 17-18, rendered before routing. -/
def headerLines : List String :=
  ["🎯 Business Framework Analysis Platform",
   "### Comprehensive analysis of 100+ business frameworks with interactive visualizations"]

/-- The `st.error` text of src/app.py line 58. -/
def errorMessage (p : Page) (e : String) : String :=
  "Error loading page \x27" ++ pageLabel p ++ "\x27: " ++ e

/-- The `st.write` text of src/app.py line 59. -/
def supportLine : String :=
  "Please try refreshing the page or contact support if the issue persists."

/-- The dispatch inside the `try` of src/app.py lines 38-56: Home renders
via `show_home_page`; each other page writes its loading line and invokes
its module handler. -/
def pageBody (df : List FrameworkRecord) (cats : List String) (q : String)
    (H : PageHandlers) : Page → Except String (List String)
  | .home => show_home_page df cats q
  | .framework_explorer =>
    H.framework_explorer.map (fun b => "Loading Framework Explorer..." :: b)
  | .comparative_analysis =>
    H.comparative_analysis.map (fun b => "Loading Comparative Analysis..." :: b)
  | .industry_recommendations =>
    H.industry_recommendations.map (fun b => "Loading Industry Recommendations..." :: b)
  | .framework_relationships =>
    H.framework_relationships.map (fun b => "Loading Framework Relationships..." :: b)

/-- A record of the concrete scenario of the specification (SWOT). -/
def swotRecord : FrameworkRecord :=
  ⟨"SWOT Analysis", "Strategic Planning Frameworks",
   "Identify strengths and weaknesses", "Strategy sessions"⟩

/-- A record of the concrete scenario of the specification (Design
Thinking). -/
def designThinkingRecord : FrameworkRecord :=
  ⟨"Design Thinking", "Innovation", "Human-centered ideation", "Product design"⟩

/-- The two-row dataset of the concrete scenario of the specification. -/
def sampleDataset : List FrameworkRecord := [swotRecord, designThinkingRecord]

/-- The `main` function of src/app.py lines 16-59 (`app_main` here, since
`main` is reserved in Lean): the data load of lines 34-35 sits before the
`try`, so its failure propagates; inside the `try`, a page failure is
caught and replaced by the error and support lines. -/
def app_main (load : Except String (List FrameworkRecord × List String))
    (H : PageHandlers) (p : Page) (q : String) : Except String (List String) :=
  match load with
  | .error e => .error e
  | .ok (df, cats) =>
    .ok (headerLines ++
      match pageBody df cats q H p with
      | .ok body => body
      | .error e => [errorMessage p e, supportLine])

/-! ### Helper lemmas -/

theorem reSearch_nil : ∀ l : List Char, reSearch [] l = true
  | [] => rfl
  | _ :: rest => by simp [reSearch, matchHere, reSearch_nil rest]

/-- The search engine, were it invoked with the empty query, would compile
the empty pattern and match every row. -/
theorem searchCode_empty (df : List FrameworkRecord) : searchCode df "" = .ok df := by
  simp only [searchCode, lowerChars, parsePattern, parseAux, String.toList]
  norm_num
  exact fun a _ => Or.inl (Or.inl (by simp [cellMatches, reSearch_nil]))

theorem contains_eq_decide (l : List String) (a : String) :
    l.contains a = decide (a ∈ l) := by
  by_cases h : a ∈ l <;> simp [h]

/-! ### The claims -/

/-- Claim C1 (code_bug evaluation): contrary to the claim that the search
never raises, the query `[` — an unterminated character set — makes the
pattern compilation of `str.contains` fail, on the scenario dataset and on
the empty dataset alike; the search returns no result at all. -/
theorem search_raises_on_unbalanced_bracket :
    searchCode sampleDataset "[" = .error "unterminated character set at position 0" ∧
    searchCode [] "[" = .error "unterminated character set at position 0" :=
  ⟨rfl, rfl⟩

/-- Claim C2 (code_bug evaluation): contrary to the claim that membership in
the result is literal substring containment, the query `.` is evaluated as
a pattern: the SWOT record is returned although `.` occurs literally in
none of its three searched fields. -/
theorem search_regex_dot_not_literal :
    searchCode [swotRecord] "." = .ok [swotRecord] ∧
    containsSubstrCI swotRecord.name "." = false ∧
    containsSubstrCI swotRecord.core_function "." = false ∧
    containsSubstrCI swotRecord.typical_uses "." = false :=
  ⟨rfl, rfl, rfl, rfl⟩

/-- Claim C3: when the handler of a selected non-Home page fails with any
error, the router catches it and renders an error line carrying the page
label and the error text (plus the support line); `app_main` still returns
normally, so the failure does not propagate. -/
theorem router_isolates_page_failure
    (df : List FrameworkRecord) (cats : List String) (H : PageHandlers)
    (p : Page) (q : String) (e : String)
    (h : handlerResult H p = some (.error e)) :
    app_main (.ok (df, cats)) H p q =
      .ok (headerLines ++
        ["Error loading page \x27" ++ pageLabel p ++ "\x27: " ++ e, supportLine]) := by
  cases p
  · simp [handlerResult] at h
  all_goals
    simp only [handlerResult, Option.some.injEq] at h
    simp [app_main, pageBody, h, errorMessage, pageLabel, Except.map]

/-- Witness for claim C3: an explorer handler that raises `boom` yields the
caught error rendering. -/
theorem router_isolates_page_failure_witness :
    app_main (.ok ([], [])) ⟨.error "boom", .ok [], .ok [], .ok []⟩
      Page.framework_explorer "" =
      .ok (headerLines ++
        ["Error loading page \x27" ++ pageLabel Page.framework_explorer ++ "\x27: " ++ "boom",
         supportLine]) :=
  router_isolates_page_failure [] [] ⟨.error "boom", .ok [], .ok [], .ok []⟩
    Page.framework_explorer "" "boom" rfl

/-- Claim C4: the dataset/category load of src/app.py lines 34-35 happens
before the router try-block, so a load failure propagates out of `main`
uncaught, whichever page is selected. -/
theorem data_load_failure_propagates (e : String) (H : PageHandlers)
    (p : Page) (q : String) : app_main (.error e) H p q = .error e := rfl

/-- Claim C5: whenever the search returns a result, that result is a
subsequence of the dataset — every returned record exists in the dataset
and the dataset's relative order is preserved (stable filter). -/
theorem search_result_sublist (df : List FrameworkRecord) (q : String)
    (res : List FrameworkRecord) (h : searchCode df q = .ok res) :
    List.Sublist res df := by
  unfold searchCode at h
  split at h
  · exact absurd h (by simp)
  · simp only [Except.ok.injEq] at h
    exact h ▸ List.filter_sublist df

/-- Witness for claim C5: searching the scenario dataset for `swot` returns
exactly the SWOT record, a subsequence of the dataset. -/
theorem search_result_sublist_witness : List.Sublist [swotRecord] sampleDataset :=
  search_result_sublist sampleDataset "swot" [swotRecord] rfl

/-- Claim C7: the featured selector returns exactly the dataset records
whose name is in the given list, as a subsequence of the dataset (dataset
order, not list order), and a listed name absent from the dataset can be
dropped from the list without changing the result (silently ignored). -/
theorem selectFeatured_spec (df : List FrameworkRecord) (L : List String) :
    List.Sublist (selectFeatured df L) df ∧
    (∀ r, r ∈ selectFeatured df L ↔ r ∈ df ∧ r.name ∈ L) ∧
    (∀ L₁ L₂ n, n ∉ df.map FrameworkRecord.name →
      selectFeatured df (L₁ ++ n :: L₂) = selectFeatured df (L₁ ++ L₂)) := by
  refine ⟨List.filter_sublist df, ?_, ?_⟩
  · intro r
    simp [selectFeatured, List.mem_filter]
  · intro L₁ L₂ n hn
    refine List.filter_congr ?_
    intro r hr
    have hne : r.name ≠ n := fun he =>
      hn (he ▸ List.mem_map_of_mem FrameworkRecord.name hr)
    rw [contains_eq_decide, contains_eq_decide]
    refine decide_eq_decide.mpr ?_
    simp [hne]

/-- Claim C8: the caller branches on the query before searching — for the
empty query the search block renders nothing and no filtering happens.  No
implicit match-all occurs, although the engine itself, on the empty query,
would match every record. -/
theorem empty_query_engine_not_invoked (df : List FrameworkRecord) (cats : List String) :
    searchSection df "" = .ok [] ∧
    searchCode df "" = .ok df ∧
    show_home_page df cats "" =
      .ok (metricLines df cats ++ ["📊 Framework Categories Overview"] ++
        chartLines df ++ ["🔍 Quick Framework Search"] ++
        ["⭐ Featured Frameworks"] ++ featuredLines df ++ guideLines) := by
  refine ⟨rfl, searchCode_empty df, ?_⟩
  simp [show_home_page, searchSection]

/-- Claim C9: the search is a pure function of the dataset and the query:
repeated invocations on unchanged inputs return equal results. -/
theorem search_is_pure (df : List FrameworkRecord) (q : String) :
    searchCode df q = searchCode df q := rfl

/-- Claim C10: an error raised while rendering the Home page itself is
caught by the same router boundary as the other pages and rendered as the
same page-naming message; `app_main` still returns normally. -/
theorem home_failure_caught_by_router
    (df : List FrameworkRecord) (cats : List String) (q : String)
    (H : PageHandlers) (e : String) (h : show_home_page df cats q = .error e) :
    app_main (.ok (df, cats)) H .home q =
      .ok (headerLines ++
        ["Error loading page \x27" ++ pageLabel Page.home ++ "\x27: " ++ e, supportLine]) := by
  simp [app_main, pageBody, h, errorMessage, pageLabel]

/-- Witness for claim C10: the Home search raising on the query `[` is
caught and rendered by the router boundary. -/
theorem home_failure_caught_by_router_witness :
    app_main (.ok (sampleDataset, ["Strategic Planning Frameworks", "Innovation"]))
      ⟨.ok [], .ok [], .ok [], .ok []⟩ Page.home "[" =
      .ok (headerLines ++
        ["Error loading page \x27" ++ pageLabel Page.home ++ "\x27: " ++
          "unterminated character set at position 0", supportLine]) :=
  home_failure_caught_by_router sampleDataset
    ["Strategic Planning Frameworks", "Innovation"] "["
    ⟨.ok [], .ok [], .ok [], .ok []⟩ "unterminated character set at position 0" rfl
